import Mathlib

/-!
Shallow embedding of src/util/profile/profile.ts (appcenter-cli profile module).

Strings are Lean strings (lists of characters).  JavaScript values that may be
undefined are modelled by the type JSVal; truthiness of a JS string is
non-emptiness.  The filesystem, the token store and the module-level cache are
gathered in an explicit State record; stateful operations are functions from
State to State paired with an Except channel modelling thrown exceptions.
-/

namespace ProfileModule

/-- A JavaScript value that is either a string or undefined (enough for the
profile fields this module manipulates). -/
inductive JSVal where
  | undef
  | str (s : String)
deriving DecidableEq

/-- JS truthiness restricted to JSVal: undefined is falsy, a string is truthy
iff it is non-empty. -/
def truthy : JSVal → Bool
  | .undef => false
  | .str s => !(s == "")

/-- JS a || b on JSVal values. -/
def jsOr (a b : JSVal) : JSVal := if truthy a then a else b

/-- The DefaultApp interface of profile.ts. -/
structure DefaultApp where
  ownerName : String
  appName : String
  identifier : String
deriving DecidableEq

/-- Character class [a-zA-Z0-9-_.] of the validApp regular expression. -/
def validAppChar (c : Char) : Bool :=
  (('a' ≤ c && c ≤ 'z') || ('A' ≤ c && c ≤ 'Z') || ('0' ≤ c && c ≤ '9') ||
    c == '-' || c == '_' || c == '.')

/-- One capture group [a-zA-Z0-9-_.]{1,100} of the validApp regular
expression: between 1 and 100 characters, all from the class. -/
def validSegment (l : List Char) : Bool :=
  decide (1 ≤ l.length) && decide (l.length ≤ 100) && l.all validAppChar

/-- Splits a character list at its first slash, returning the part before and
the part after, or none when no slash occurs.  Because the slash is not in the
character class of the groups, app.match(validApp) succeeds exactly when this
split succeeds and both parts are valid segments. -/
def splitFirstSlash : List Char → Option (List Char × List Char)
  | [] => none
  | c :: rest =>
    if c = '/' then some ([], rest)
    else
      match splitFirstSlash rest with
      | none => none
      | some (a, b) => some (c :: a, b)

/-- toDefaultApp of profile.ts: matches against
^([a-zA-Z0-9-_.]{1,100})\/([a-zA-Z0-9-_.]{1,100})$ and on success builds the
structure with identifier interpolated from the two groups; on failure
returns null (none). -/
def toDefaultApp (app : String) : Option DefaultApp :=
  match splitFirstSlash app.data with
  | some (a, b) =>
    if validSegment a && validSegment b then
      some { ownerName := String.mk a, appName := String.mk b,
             identifier := String.mk (a ++ '/' :: b) }
    else none
  | none => none

/-- The token value stored by the token-store collaborator (opaque to this
module; only identity matters here). -/
structure TokenValueType where
  id : String
  token : String
deriving DecidableEq

/-- The fields a profile-shaped JS object (the constructor argument
fileContents, or the user object passed to saveUser) may carry: the
file-shaped names userId/userName and the API-shaped names id/name, plus the
descriptive fields and the optional defaultApp. -/
structure FileContents where
  userId : JSVal
  id : JSVal
  userName : JSVal
  name : JSVal
  displayName : JSVal
  email : JSVal
  environment : JSVal
  defaultApp : Option DefaultApp
deriving DecidableEq

/-- The Profile record held by a ProfileImpl instance (accessToken and
endpoint are derived from collaborators and carry no state of their own). -/
structure Profile where
  userId : JSVal
  userName : JSVal
  displayName : JSVal
  email : JSVal
  environment : JSVal
  defaultApp : Option DefaultApp
deriving DecidableEq

/-- The ProfileImpl constructor: userId falls back from userId to id and
userName from userName to name via JS ||; the remaining fields are copied
verbatim. -/
def ProfileImpl (fileContents : FileContents) : Profile :=
  { userId := jsOr fileContents.userId fileContents.id
    userName := jsOr fileContents.userName fileContents.name
    displayName := fileContents.displayName
    email := fileContents.email
    environment := fileContents.environment
    defaultApp := fileContents.defaultApp }

/-- The JSON object written by ProfileImpl.save: exactly the six profile
fields under their file-shaped names; the object has no id or name key, so
reading those keys after a reload yields undefined. -/
def toFileContents (p : Profile) : FileContents :=
  { userId := p.userId
    id := .undef
    userName := p.userName
    name := .undef
    displayName := p.displayName
    email := p.email
    environment := p.environment
    defaultApp := p.defaultApp }

/-- The state of the profile file on disk: absent, present with parseable
contents, present but not valid JSON, or inaccessible (stat/unlink fail with
an error other than ENOENT, e.g. permission denied). -/
inductive DiskFile where
  | absent
  | stored (fc : FileContents)
  | corrupt
  | inaccessible
deriving DecidableEq

/-- Errors thrown by the filesystem or JSON layers that this module lets
escape. -/
inductive JsErr where
  | eacces
  | parseError
deriving DecidableEq

/-- Process-wide state the module interacts with: the profile file, the token
store (a map from key to stored token), the module-level currentProfile cache
and a counter of profile-file read attempts (loadProfile invocations), used to
observe whether a call touched the disk. -/
structure State where
  disk : DiskFile
  tokens : JSVal → Option TokenValueType
  cache : Option Profile
  reads : Nat

/-- tokenStore.set. -/
def setToken (k : JSVal) (v : TokenValueType) (ts : JSVal → Option TokenValueType) :
    JSVal → Option TokenValueType :=
  fun x => if x = k then some v else ts x

/-- tokenStore.remove. -/
def removeToken (k : JSVal) (ts : JSVal → Option TokenValueType) :
    JSVal → Option TokenValueType :=
  fun x => if x = k then none else ts x

/-- ProfileImpl.save: mkdirp the profile directory and overwrite the profile
file with the JSON serialization of the six fields; returns this. -/
def Profile.save (p : Profile) (s : State) : State × Profile :=
  ({ s with disk := .stored (toFileContents p) }, p)

/-- loadProfile: fileExists (statSync with ENOENT caught) then readFileSync +
JSON.parse + new ProfileImpl.  Absence yields null; a stat error other than
ENOENT or a parse error is thrown. -/
def loadProfile : DiskFile → Except JsErr (Option Profile)
  | .absent => .ok none
  | .stored fc => .ok (some (ProfileImpl fc))
  | .corrupt => .error .parseError
  | .inaccessible => .error .eacces

/-- getUser: return the cached currentProfile if truthy, otherwise assign it
from loadProfile (a null result leaves the cache null) and return it.  The
reads counter records the loadProfile invocation. -/
def getUser (s : State) : State × Except JsErr (Option Profile) :=
  match s.cache with
  | some p => (s, .ok (some p))
  | none =>
    match loadProfile s.disk with
    | .ok r => ({ s with cache := r, reads := s.reads + 1 }, .ok r)
    | .error e => ({ s with reads := s.reads + 1 }, .error e)

/-- ProfileImpl.logout: await tokenStore.remove(this.userName), then
unlinkSync the profile file, swallowing ENOENT and rethrowing anything
else. -/
def Profile.logout (p : Profile) (s : State) : State × Except JsErr Unit :=
  let s1 := { s with tokens := removeToken p.userName s.tokens }
  match s1.disk with
  | .absent => (s1, .ok ())
  | .inaccessible => (s1, .error .eacces)
  | .stored _ => ({ s1 with disk := .absent }, .ok ())
  | .corrupt => ({ s1 with disk := .absent }, .ok ())

/-- saveUser: tokenStore.set(user.name, token); only if that resolves,
construct a ProfileImpl from Object.assign({}, user, {environment}) and
save it.  The collaborator's outcome is an input (tsFail = some e models a
rejected set).  The currentProfile cache is not touched. -/
def saveUser (user : FileContents) (token : TokenValueType) (environment : JSVal)
    (tsFail : Option JsErr) (s : State) : State × Except JsErr Profile :=
  match tsFail with
  | some e => (s, .error e)
  | none =>
    let s1 := { s with tokens := setToken user.name token s.tokens }
    let p := ProfileImpl { user with environment := environment }
    let s2 := (p.save s1).1
    (s2, .ok p)

/-- deleteUser: getUser, then logout on the result if non-null. -/
def deleteUser (s : State) : State × Except JsErr Unit :=
  match getUser s with
  | (s1, .ok (some p)) => p.logout s1
  | (s1, .ok none) => (s1, .ok ())
  | (s1, .error e) => (s1, .error e)

/-- A token store with no entries, used for concrete evaluations. -/
def emptyTokens : JSVal → Option TokenValueType := fun _ => none

/-- An identity field survives the falsy-coalescing reload when it is either
undefined or a truthy (non-empty) string. -/
def okIdentityField (v : JSVal) : Prop := v = JSVal.undef ∨ truthy v = true

instance (v : JSVal) : Decidable (okIdentityField v) := by
  unfold okIdentityField
  infer_instance

/-- Clearing the module cache models a fresh process: after a restart the
cache starts out null while disk and token store persist. -/
def clearCache (s : State) : State := { s with cache := none }

/-- Concrete profile file contents used in concrete evaluations. -/
def sampleFC : FileContents :=
  { userId := .str "i", id := .undef, userName := .str "u", name := .undef,
    displayName := .undef, email := .undef, environment := .undef,
    defaultApp := none }

/-- A concrete user object whose userName and name fields are both truthy
and differ. -/
def mismatchUser : FileContents :=
  { userId := .str "i", id := .undef, userName := .str "u", name := .str "n",
    displayName := .undef, email := .undef, environment := .undef,
    defaultApp := none }

/-- A concrete state with no profile file, an empty token store and an empty
cache. -/
def emptyState : State :=
  { disk := .absent, tokens := emptyTokens, cache := none, reads := 0 }

/-- A concrete state whose profile file holds sampleFC, with an empty
cache. -/
def storedState : State :=
  { disk := .stored sampleFC, tokens := emptyTokens, cache := none,
    reads := 0 }

/-- A concrete token value. -/
def sampleToken : TokenValueType := ⟨"tid", "tv"⟩

theorem splitFirstSlash_some {l a b : List Char}
    (h : splitFirstSlash l = some (a, b)) :
    l = a ++ '/' :: b ∧ '/' ∉ a := by
  induction l generalizing a b with
  | nil => simp [splitFirstSlash] at h
  | cons c rest ih =>
    by_cases hc : c = '/'
    · subst hc
      simp [splitFirstSlash] at h
      obtain ⟨ha, hb⟩ := h
      subst ha; subst hb
      simp
    · simp [splitFirstSlash, hc] at h
      cases hsplit : splitFirstSlash rest with
      | none => rw [hsplit] at h; simp at h
      | some ab =>
        obtain ⟨a', b'⟩ := ab
        rw [hsplit] at h
        simp at h
        obtain ⟨ha, hb⟩ := h
        obtain ⟨hrest, hnotin⟩ := ih hsplit
        subst ha; subst hb
        constructor
        · rw [hrest]; rfl
        · intro hmem
          rcases List.mem_cons.mp hmem with h1 | h1
          · exact hc h1.symm
          · exact hnotin h1

theorem splitFirstSlash_append {a : List Char} (b : List Char)
    (h : '/' ∉ a) :
    splitFirstSlash (a ++ '/' :: b) = some (a, b) := by
  induction a with
  | nil => simp [splitFirstSlash]
  | cons c a' ih =>
    have hc : ¬ (c = '/') := fun hcc => h (hcc ▸ List.mem_cons_self c a')
    have hnotin : '/' ∉ a' := fun hm => h (List.mem_cons_of_mem c hm)
    simp only [List.cons_append, splitFirstSlash, if_neg hc, List.append_eq]
    rw [ih hnotin]

theorem validSegment_no_slash {a : List Char} (h : validSegment a = true) :
    '/' ∉ a := by
  intro hmem
  have hall : a.all validAppChar = true := by
    have h' := h
    simp only [validSegment, Bool.and_eq_true] at h'
    exact h'.2
  have hv : validAppChar '/' = true := List.all_eq_true.mp hall '/' hmem
  simp [validAppChar] at hv

theorem toDefaultApp_eq_some_iff (s : String) (d : DefaultApp) :
    toDefaultApp s = some d ↔
      ∃ a b : List Char, s.data = a ++ '/' :: b ∧ validSegment a = true ∧
        validSegment b = true ∧
        d = ⟨String.mk a, String.mk b, String.mk (a ++ '/' :: b)⟩ := by
  constructor
  · intro h
    cases hsplit : splitFirstSlash s.data with
    | none =>
      simp only [toDefaultApp, hsplit] at h
      exact absurd h (by simp)
    | some ab =>
      obtain ⟨a, b⟩ := ab
      simp only [toDefaultApp, hsplit] at h
      by_cases hv : (validSegment a && validSegment b) = true
      · rw [if_pos hv] at h
        obtain ⟨hdecomp, _⟩ := splitFirstSlash_some hsplit
        rw [Bool.and_eq_true] at hv
        refine ⟨a, b, hdecomp, hv.1, hv.2, ?_⟩
        simp only [Option.some.injEq] at h
        exact h.symm
      · rw [if_neg hv] at h
        exact absurd h (by simp)
  · rintro ⟨a, b, hdecomp, hva, hvb, hd⟩
    have hsplit : splitFirstSlash s.data = some (a, b) := by
      rw [hdecomp]
      exact splitFirstSlash_append b (validSegment_no_slash hva)
    simp only [toDefaultApp, hsplit]
    rw [hva, hvb, hd]
    simp

theorem toDefaultApp_eq_none_iff (s : String) :
    toDefaultApp s = none ↔
      ¬ ∃ a b : List Char, s.data = a ++ '/' :: b ∧ validSegment a = true ∧
        validSegment b = true := by
  constructor
  · rintro hnone ⟨a, b, hdecomp, hva, hvb⟩
    have : toDefaultApp s =
        some ⟨String.mk a, String.mk b, String.mk (a ++ '/' :: b)⟩ :=
      (toDefaultApp_eq_some_iff s _).mpr ⟨a, b, hdecomp, hva, hvb, rfl⟩
    rw [hnone] at this
    exact Option.noConfusion this
  · intro hne
    cases hr : toDefaultApp s with
    | none => rfl
    | some d =>
      obtain ⟨a, b, hdecomp, hva, hvb, _⟩ :=
        (toDefaultApp_eq_some_iff s d).mp hr
      exact absurd ⟨a, b, hdecomp, hva, hvb⟩ hne

/-- C1: for every string, toDefaultApp returns some DefaultApp exactly when
the string decomposes as owner/app with both segments 1 to 100 characters
drawn from [A-Za-z0-9-_.]; the result then carries the two segments as
ownerName and appName and their slash-joined concatenation as identifier, and
every non-matching string yields null. -/
theorem toDefaultApp_correct (s : String) :
    (∀ d : DefaultApp, toDefaultApp s = some d ↔
      ∃ a b : List Char, s.data = a ++ '/' :: b ∧ validSegment a = true ∧
        validSegment b = true ∧
        d = ⟨String.mk a, String.mk b, String.mk (a ++ '/' :: b)⟩) ∧
    (toDefaultApp s = none ↔
      ¬ ∃ a b : List Char, s.data = a ++ '/' :: b ∧ validSegment a = true ∧
        validSegment b = true) :=
  ⟨fun d => toDefaultApp_eq_some_iff s d, toDefaultApp_eq_none_iff s⟩

/-- C1 witness: the iff evaluated on the concrete input acme/myapp. -/
theorem toDefaultApp_correct_witness :
    toDefaultApp "acme/myapp" =
      some ⟨"acme", "myapp", "acme/myapp"⟩ := by
  refine ((toDefaultApp_correct "acme/myapp").1 _).mpr
    ⟨"acme".data, "myapp".data, ?_, ?_, ?_, ?_⟩ <;> decide

/-- C10: the ProfileImpl constructor takes userId from the input's userId
field only when truthy, falling back to id, and userName likewise falls back
to name; an empty-string userId or userName is therefore replaced by the
fallback field and not preserved. -/
theorem profileImpl_falsy_fallback (fc : FileContents) :
    (ProfileImpl fc).userId = (if truthy fc.userId then fc.userId else fc.id) ∧
    (ProfileImpl fc).userName =
      (if truthy fc.userName then fc.userName else fc.name) ∧
    (ProfileImpl { fc with userId := .str "" }).userId = fc.id ∧
    (ProfileImpl { fc with userName := .str "" }).userName = fc.name :=
  ⟨rfl, rfl, by simp [ProfileImpl, jsOr, truthy], by simp [ProfileImpl, jsOr, truthy]⟩

theorem jsOr_undef {v : JSVal} (h : okIdentityField v) :
    jsOr v JSVal.undef = v := by
  rcases h with rfl | ht
  · rfl
  · simp [jsOr, ht]

/-- C2 counterexample: a Profile whose userId is the empty string does not
survive save followed by a fresh loadProfile; the reloaded userId is
undefined, not the empty string. -/
theorem save_load_roundtrip_cex :
    loadProfile ((Profile.save
        { userId := .str "", userName := .str "u", displayName := .str "d",
          email := .str "e", environment := .str "env", defaultApp := none }
        { disk := .absent, tokens := emptyTokens, cache := none,
          reads := 0 }).1.disk) =
      .ok (some { userId := .undef, userName := .str "u",
                  displayName := .str "d", email := .str "e",
                  environment := .str "env", defaultApp := none }) ∧
    JSVal.undef ≠ JSVal.str "" :=
  ⟨rfl, by decide⟩

/-- C2 amended: save followed by a fresh loadProfile reconstructs a Profile
with identical userId, userName, displayName, email, environment and
defaultApp, provided userId and userName are each undefined or a non-empty
string (an empty-string value is turned into the undefined fallback by the
constructor's falsy coalescing). -/
theorem save_load_roundtrip (p : Profile) (s : State)
    (hId : okIdentityField p.userId) (hName : okIdentityField p.userName) :
    loadProfile ((Profile.save p s).1.disk) = .ok (some p) := by
  have h1 : jsOr p.userId JSVal.undef = p.userId := jsOr_undef hId
  have h2 : jsOr p.userName JSVal.undef = p.userName := jsOr_undef hName
  have hp : ProfileImpl (toFileContents p) = p := by
    simp [ProfileImpl, toFileContents, h1, h2]
  simp [Profile.save, loadProfile, hp]

/-- C2 witness: the round trip evaluated on a concrete profile. -/
theorem save_load_roundtrip_witness :
    loadProfile ((Profile.save
        { userId := .str "id1", userName := .str "u", displayName := .str "d",
          email := .str "e", environment := .str "env",
          defaultApp := some ⟨"acme", "myapp", "acme/myapp"⟩ }
        { disk := .absent, tokens := emptyTokens, cache := none,
          reads := 0 }).1.disk) =
      .ok (some { userId := .str "id1", userName := .str "u",
                  displayName := .str "d", email := .str "e",
                  environment := .str "env",
                  defaultApp := some ⟨"acme", "myapp", "acme/myapp"⟩ }) :=
  save_load_roundtrip _ _ (by decide) (by decide)

/-- C3 counterexample: loadProfile copies defaultApp verbatim, so a profile
file whose identifier disagrees with its ownerName and appName loads into a
Profile that violates the identifier invariant. -/
theorem defaultApp_invariant_cex :
    loadProfile (.stored
        { userId := .str "i", id := .undef, userName := .str "u",
          name := .undef, displayName := .str "d", email := .str "e",
          environment := .str "v",
          defaultApp := some ⟨"a", "b", "weird"⟩ }) =
      .ok (some { userId := .str "i", userName := .str "u",
                  displayName := .str "d", email := .str "e",
                  environment := .str "v",
                  defaultApp := some ⟨"a", "b", "weird"⟩ }) ∧
    ("weird" : String) ≠ "a" ++ "/" ++ "b" :=
  ⟨rfl, by decide⟩

/-- C3 amended: every DefaultApp built by toDefaultApp satisfies
identifier = ownerName ++ slash ++ appName, and the ProfileImpl constructor
copies defaultApp verbatim (so the invariant is preserved by save and reload
but is not enforced on arbitrary file contents or user objects). -/
theorem defaultApp_identifier_invariant :
    (∀ (s : String) (d : DefaultApp), toDefaultApp s = some d →
      d.identifier = d.ownerName ++ "/" ++ d.appName) ∧
    (∀ fc : FileContents, (ProfileImpl fc).defaultApp = fc.defaultApp) := by
  constructor
  · intro s d h
    obtain ⟨a, b, _, _, _, hd⟩ := (toDefaultApp_eq_some_iff s d).mp h
    subst hd
    show String.mk (a ++ '/' :: b) = String.mk a ++ "/" ++ String.mk b
    apply congrArg String.mk
    simp
  · intro fc
    rfl

/-- C3 witness: the invariant evaluated on the concrete parse of x/y. -/
theorem defaultApp_identifier_invariant_witness :
    (⟨"x", "y", "x/y"⟩ : DefaultApp).identifier = "x" ++ "/" ++ "y" :=
  defaultApp_identifier_invariant.1 "x/y" ⟨"x", "y", "x/y"⟩ (by decide)

/-- C4 counterexample: with no profile file and an empty cache, the first
getUser returns null without populating the cache, so the second consecutive
getUser reads the disk again (the read counter advances from 1 to 2). -/
theorem getUser_reread_cex :
    (getUser emptyState).2 = .ok none ∧
    (getUser emptyState).1.reads = 1 ∧
    (getUser ((getUser emptyState).1)).1.reads = 2 :=
  ⟨rfl, rfl, rfl⟩

/-- C4 amended: two consecutive getUser calls with no intervening operation
always return the same result, and when the first call returns a Profile the
second performs no disk read; when the first call returns null the cache
stays empty and the second call reads the profile file again. -/
theorem getUser_cached (s : State) :
    (getUser ((getUser s).1)).2 = (getUser s).2 ∧
    (∀ p, (getUser s).2 = .ok (some p) →
      (getUser ((getUser s).1)).1.reads = (getUser s).1.reads) := by
  rcases s with ⟨disk, tokens, cache, reads⟩
  cases cache with
  | some p => simp [getUser]
  | none =>
    cases disk <;> simp [getUser, loadProfile]

/-- C4 witness: the no-reread conclusion evaluated on a state whose first
call loads a stored profile. -/
theorem getUser_cached_witness :
    (getUser ((getUser storedState).1)).1.reads =
      (getUser storedState).1.reads :=
  (getUser_cached storedState).2 (ProfileImpl sampleFC) rfl

/-- C5: with an empty cache and no profile file, getUser returns null as an
ordinary result, not an error. -/
theorem getUser_no_file (s : State) (hc : s.cache = none)
    (hd : s.disk = .absent) :
    (getUser s).2 = .ok none := by
  simp [getUser, hc, hd, loadProfile]

/-- C5 witness: getUser evaluated on the concrete empty state. -/
theorem getUser_no_file_witness :
    (getUser emptyState).2 = .ok none :=
  getUser_no_file emptyState rfl rfl

/-- C6: logout always removes the token-store entry under the profile's
userName, also when the later unlink fails, showing the removal comes first;
the profile file ends up deleted and the call succeeds whenever unlink does
not fail with a non-ENOENT error, in particular on an already absent file; a
non-ENOENT unlink error propagates; and a second logout right after a first
returns the same outcome, so logout after logout does not throw. -/
theorem logout_spec (p : Profile) (s : State) :
    ((p.logout s).1.tokens = removeToken p.userName s.tokens) ∧
    ((p.logout s).1.disk =
      (if s.disk = .inaccessible then s.disk else .absent)) ∧
    ((p.logout s).2 =
      (if s.disk = .inaccessible then .error .eacces else .ok ())) ∧
    ((p.logout ((p.logout s).1)).2 = (p.logout s).2) := by
  rcases s with ⟨disk, tokens, cache, reads⟩
  cases disk <;> simp [Profile.logout]

/-- C7: saveUser first stores the token under user.name; if the token store
rejects, the state, in particular the profile file, is untouched and the
rejection propagates; on success the profile built from the user object
merged with the environment is written to the profile file and returned. -/
theorem saveUser_spec (user : FileContents) (token : TokenValueType)
    (environment : JSVal) (s : State) :
    (∀ e, saveUser user token environment (some e) s = (s, .error e)) ∧
    (saveUser user token environment none s =
      ({ s with tokens := setToken user.name token s.tokens,
                disk := .stored (toFileContents
                  (ProfileImpl { user with environment := environment })) },
       .ok (ProfileImpl { user with environment := environment }))) := by
  constructor
  · intro e
    rfl
  · rfl

/-- C8 counterexample: deleteUser does not clear the module cache, so a
getUser in the same process after a completed deleteUser still returns the
stale profile rather than null. -/
theorem deleteUser_stale_cache_cex :
    (deleteUser storedState).2 = .ok () ∧
    (getUser ((deleteUser storedState).1)).2 =
      .ok (some (ProfileImpl sampleFC)) ∧
    (some (ProfileImpl sampleFC) : Option Profile) ≠ none :=
  ⟨rfl, rfl, by decide⟩

/-- C8 amended: the two-state machine holds at the persistent level: a
completed deleteUser leaves the profile file absent and a fresh process
(cache cleared) then observes NoUser from getUser, while a successful
saveUser leaves the file holding the saved profile and a fresh process then
observes HasUser; within the calling process, however, logout and deleteUser
do not clear the cache. -/
theorem state_machine_persistent (s : State) (user : FileContents)
    (token : TokenValueType) (env : JSVal) :
    ((deleteUser s).2 = .ok () →
      (deleteUser s).1.disk = .absent ∧
      (getUser (clearCache (deleteUser s).1)).2 = .ok none) ∧
    ((getUser (clearCache (saveUser user token env none s).1)).2 =
      .ok (some (ProfileImpl (toFileContents
        (ProfileImpl { user with environment := env }))))) := by
  constructor
  · intro h
    rcases s with ⟨disk, tokens, cache, reads⟩
    cases cache with
    | some p =>
      cases disk <;>
        simp_all [deleteUser, getUser, Profile.logout, loadProfile, clearCache]
    | none =>
      cases disk <;>
        simp_all [deleteUser, getUser, Profile.logout, loadProfile, clearCache]
  · rfl

/-- C8 witness: the deleteUser conclusion evaluated on the concrete state
holding a stored profile. -/
theorem state_machine_persistent_witness :
    (deleteUser storedState).1.disk = .absent ∧
    (getUser (clearCache (deleteUser storedState).1)).2 = .ok none :=
  (state_machine_persistent storedState sampleFC sampleToken (.str "env")).1
    rfl

/-- C9: saveUser stores the token under user.name while the returned
profile's userName is user.userName (when truthy); when the two fields
differ, a later logout on that profile removes the token-store entry under
userName and leaves the entry the token was actually stored under in
place. -/
theorem saveUser_token_key_mismatch (user : FileContents)
    (token : TokenValueType) (env : JSVal) (s : State)
    (hU : truthy user.userName = true) (_hN : truthy user.name = true)
    (hNe : user.userName ≠ user.name) :
    ((saveUser user token env none s).2 =
      .ok (ProfileImpl { user with environment := env })) ∧
    ((ProfileImpl { user with environment := env }).userName =
      user.userName) ∧
    ((saveUser user token env none s).1.tokens user.name = some token) ∧
    (((ProfileImpl { user with environment := env }).logout
        (saveUser user token env none s).1).1.tokens user.name =
      some token) ∧
    (((ProfileImpl { user with environment := env }).logout
        (saveUser user token env none s).1).1.tokens user.userName =
      none) := by
  have hpn : (ProfileImpl { user with environment := env }).userName =
      user.userName := by
    simp [ProfileImpl, jsOr, hU]
  refine ⟨rfl, hpn, ?_, ?_, ?_⟩
  · simp [saveUser, Profile.save, setToken]
  · simp [saveUser, Profile.save, Profile.logout, setToken, removeToken, hpn,
      Ne.symm hNe]
  · simp [saveUser, Profile.save, Profile.logout, setToken, removeToken, hpn]

/-- C9 witness: the key mismatch evaluated on a concrete user whose userName
is u while its name is n. -/
theorem saveUser_token_key_mismatch_witness :
    ((saveUser mismatchUser sampleToken (.str "env") none
        emptyState).1.tokens (.str "n") = some sampleToken) ∧
    (((ProfileImpl { mismatchUser with environment := .str "env" }).logout
        (saveUser mismatchUser sampleToken (.str "env") none
          emptyState).1).1.tokens (.str "n") = some sampleToken) ∧
    (((ProfileImpl { mismatchUser with environment := .str "env" }).logout
        (saveUser mismatchUser sampleToken (.str "env") none
          emptyState).1).1.tokens (.str "u") = none) := by
  have h := saveUser_token_key_mismatch mismatchUser sampleToken (.str "env")
    emptyState (by decide) (by decide) (by decide)
  exact ⟨h.2.2.1, h.2.2.2.1, by
    have h5 := h.2.2.2.2
    simpa [mismatchUser] using h5⟩

end ProfileModule

